import Mathlib

/-!
Shallow embedding of `smurfify.py` (word-substitution engine).

Strings are Lean `String`s (lists of characters); Python string methods
(`lower`, `upper`, `capitalize`, `isupper`, `istitle`, `isalpha`,
`endswith`, `startswith`, whitespace `split`) are modelled character-wise
over `String.data`, with ASCII casing (all words in the program's lexicon
and its documented inputs are ASCII).

Randomness: Python's global `random.random()` is modelled as an explicit
stream `g : ℕ → ℚ` of draw values together with a cursor `k : ℕ`; every
call to `random.random()` reads `g k` and advances the cursor, exactly in
the order the Python code performs the calls.  The constant
`CHAOS_CHANCE` becomes an explicit parameter `chaos : ℚ` of the
functions that consult it.
-/

namespace Smurfify

/-- Python `str.lower()` (ASCII). -/
def pyLower (s : String) : String := ⟨s.data.map Char.toLower⟩

/-- Python `str.upper()` (ASCII). -/
def pyUpper (s : String) : String := ⟨s.data.map Char.toUpper⟩

/-- Python `str.capitalize()`: first character uppercased, rest lowercased. -/
def pyCapitalize (s : String) : String :=
  match s.data with
  | [] => ""
  | c :: cs => ⟨c.toUpper :: cs.map Char.toLower⟩

/-- Python `s.endswith(p)`. -/
def pyEndsWith (s p : String) : Bool :=
  s.data.drop (s.data.length - p.data.length) == p.data

/-- Python `s.startswith(p)`. -/
def pyStartsWith (s p : String) : Bool :=
  s.data.take p.data.length == p.data

/-- Python `str.isupper()`: at least one cased character and no lowercase
character (cased = ASCII letter in this model). -/
def pyIsUpper (s : String) : Bool :=
  s.data.any Char.isAlpha && s.data.all (fun c => !c.isLower)

/-- Scanner for Python `str.istitle()`: uppercase letters may follow only
uncased characters, lowercase letters only cased ones; at least one cased
character overall. -/
def pyIsTitleAux : List Char → Bool → Bool → Bool
  | [], _, cased => cased
  | c :: cs, prevCased, cased =>
    if c.isUpper then
      if prevCased then false else pyIsTitleAux cs true true
    else if c.isLower then
      if prevCased then pyIsTitleAux cs true true else false
    else pyIsTitleAux cs false cased

/-- Python `str.istitle()`. -/
def pyIsTitle (s : String) : Bool := pyIsTitleAux s.data false false

/-- Python `str.isalpha()`: nonempty and all alphabetic. -/
def pyIsAlphaStr (s : String) : Bool :=
  !s.data.isEmpty && s.data.all Char.isAlpha

/-- `VERBS` set from the source (duplicates in the Python set literal are
harmless; membership is what matters). -/
def VERBS : List String := [
  "fix", "use", "try", "run", "make", "build", "break", "work", "get", "open", "close",
  "start", "stop", "install", "update", "write", "read", "create", "test", "save",
  "remove", "delete", "move", "copy", "push", "pull", "deploy", "debug", "submit",
  "sync", "compile", "reboot", "configure", "clone", "publish",
  "see", "take", "give", "find", "call", "help", "ask", "know", "need", "show",
  "leave", "come", "look", "tell", "want", "put", "bring", "play", "speak", "learn",
  "live", "smile", "believe", "follow", "carry", "become", "remember", "love", "hate",
  "eat", "drink", "sleep", "walk", "sit", "stand",
  "entertain", "sing", "dance", "dream", "fight", "shout", "whisper", "laugh",
  "cry", "hope", "plan", "smurf"]

/-- `NOUNS` set from the source. -/
def NOUNS : List String := [
  "tool", "thing", "plan", "idea", "bug", "code", "file", "script", "device", "command",
  "folder", "line", "project", "task", "feature", "issue", "input", "output", "program",
  "proposal", "workflow", "pipeline", "repo", "package", "module", "service", "container",
  "turtle", "timeline", "cloud", "feedback", "platform", "windows", "mac", "linux",
  "time", "day", "night", "man", "woman", "child", "world", "life",
  "hand", "eye", "place", "work", "year", "friend", "family", "house",
  "name", "school", "story", "water", "fire", "earth", "air",
  "city", "village", "river", "road", "table", "book", "letter",
  "voice", "language", "song", "truth", "order", "union", "justice"]

/-- `ADJECTIVES` set from the source. -/
def ADJECTIVES : List String := [
  "good", "bad", "broken", "awesome", "clever", "smart", "dumb", "quick", "slow",
  "ugly", "useful", "confusing", "weird", "helpful", "nice", "simple", "hard", "cool",
  "agile", "responsive",
  "big", "small", "long", "short", "happy", "sad", "easy", "new", "old", "young",
  "strong", "weak", "bright", "dark", "loud", "quiet", "fast", "slow",
  "simple", "complex", "early", "late", "warm", "cold"]

/-- `EXCLAIMS` set from the source. -/
def EXCLAIMS : List String := [
  "wow", "yay", "oops", "hey", "yeah", "woo", "whoa", "huh", "ugh", "nope", "nice",
  "heck", "hell", "damn", "darn", "crap", "woot"]

/-- `CONNECTORS` set from the source. -/
def CONNECTORS : List String := ["and", ","]

/-- `CHAOS_CHANCE = 0.05` from the source, as an exact rational. -/
def CHAOS_CHANCE : ℚ := mkRat 1 20

/-- `apply_inflection(replacement, original)`: suffix rules on the
lowercased original (first match wins), then casing from the original. -/
def apply_inflection (replacement original : String) : String :=
  let lower := pyLower original
  let r :=
    if pyEndsWith lower "ing" then replacement ++ "ing"
    else if pyEndsWith lower "ed" then replacement ++ "ed"
    else if pyEndsWith lower "s" && !pyEndsWith lower "ss" then replacement ++ "s"
    else replacement
  if pyIsUpper original then pyUpper r
  else if pyIsTitle original then pyCapitalize r
  else r

/-- `smurfify_base(base)`: category lookup in source order
(Verb/Noun, then Adjective, then Exclaim), else the chaos fallback.
The chaos draw is consumed only when `base.isalpha()` holds (Python's
`and` short-circuits). -/
def smurfify_base (chaos : ℚ) (g : ℕ → ℚ) (base : String) (k : ℕ) : String × ℕ :=
  let lower := pyLower base
  if VERBS.contains lower || NOUNS.contains lower then
    (apply_inflection "smurf" base, k)
  else if ADJECTIVES.contains lower then
    (apply_inflection "smurfy" base, k)
  else if EXCLAIMS.contains lower then
    ("Smurf!", k)
  else if pyIsAlphaStr base then
    if g k < chaos then (apply_inflection "smurf" base, k + 1)
    else (base, k + 1)
  else (base, k)

/-- A `\w` character of the source regex (ASCII model: letter, digit or
underscore). -/
def isWordChar (c : Char) : Bool := c.isAlphanum || c == '_'

/-- A character allowed in the base group `[\w\-]` of the token regex. -/
def isBaseChar (c : Char) : Bool := isWordChar c || c == '-'

/-- The punctuation class of the token regex. -/
def PUNCT : List Char := ['.', ',', '!', '?', ';', ':', '\'', '"', '`']

/-- Membership in the punctuation class. -/
def isPunctChar (c : Char) : Bool := PUNCT.contains c

/-- The anchored match of `^([\w\-]+)([.,!?;:'\"`]*)$`: because the base
class and the punctuation class are disjoint, the regex matches exactly
when the token is a nonempty maximal run of base characters followed by
punctuation characters only. -/
def matchToken (w : String) : Option (String × String) :=
  let b := w.data.takeWhile isBaseChar
  let rest := w.data.dropWhile isBaseChar
  if !b.isEmpty && rest.all isPunctChar then some (⟨b⟩, ⟨rest⟩) else none

/-- Python `base.split('-')` on the character list (never empty; empty
input gives `[[]]`, doubled hyphens give empty pieces). -/
def splitHyphen : List Char → List (List Char)
  | [] => [[]]
  | c :: cs =>
    if c == '-' then [] :: splitHyphen cs
    else (c :: (splitHyphen cs).headD []) :: (splitHyphen cs).tail

/-- Python `'-'.join(parts)`. -/
def joinHyphen : List (List Char) → List Char
  | [] => []
  | [p] => p
  | p :: ps => p ++ '-' :: joinHyphen ps

/-- The list comprehension `[smurfify_base(part) for part in parts]`,
threading the random cursor left to right. -/
def smurfParts (chaos : ℚ) (g : ℕ → ℚ) : List (List Char) → ℕ → List (List Char) × ℕ
  | [], k => ([], k)
  | p :: ps, k =>
    let r := smurfify_base chaos g ⟨p⟩ k
    let t := smurfParts chaos g ps r.2
    (r.1.data :: t.1, t.2)

/-- `smurfify_word(word)`: regex split into base and punctuation, smurf
each hyphen piece, rejoin and reattach the punctuation; a non-matching
token is returned unchanged. -/
def smurfify_word (chaos : ℚ) (g : ℕ → ℚ) (word : String) (k : ℕ) : String × ℕ :=
  match matchToken word with
  | none => (word, k)
  | some (base, punct) =>
    let r := smurfParts chaos g (splitHyphen base.data) k
    (⟨joinHyphen r.1⟩ ++ punct, r.2)

/-- `is_smurfed(word)`: case-insensitive test that the word starts with
"smurf". -/
def is_smurfed (word : String) : Bool := pyStartsWith (pyLower word) "smurf"

/-- `re.sub(r"[^\w\-]", "", s)`: drop every character outside `[\w\-]`. -/
def stripNonWord (s : String) : String := ⟨s.data.filter isBaseChar⟩

/-- The guard of the `verb some noun` idiom (Rule A) at a three-token
window. -/
def ruleACond (w0 w1 w2 : String) : Bool :=
  pyLower w1 == "some"
    && VERBS.contains (stripNonWord (pyLower w0))
    && NOUNS.contains (stripNonWord (pyLower w2))

/-- The `while` loop of `smurfify_line` over the token list, with a fuel
argument for structural recursion (every step consumes at least one
token, so fuel equal to the token count is always enough, see
`smurfLoopF_eq_smurfLoop`).  A three-token window first tries Rule A
(idiom), then Rule B (connector collision); Rule B computes both
speculative transforms — consuming their draws — and on no collision
falls through to the normal single-word case, transforming token `[i]`
afresh and resuming at `[i+1]`. -/
def smurfLoopF (chaos : ℚ) (g : ℕ → ℚ) : ℕ → List String → ℕ → List String × ℕ
  | 0, _, k => ([], k)
  | fuel + 1, ws, k =>
    match ws with
    | [] => ([], k)
    | w0 :: w1 :: w2 :: rest2 =>
      if ruleACond w0 w1 w2 then
        if g k < mkRat 1 2 then
          let r := smurfify_word chaos g w0 (k + 1)
          let t := smurfLoopF chaos g fuel rest2 r.2
          (r.1 :: "some" :: w2 :: t.1, t.2)
        else
          let r := smurfify_word chaos g w2 (k + 1)
          let t := smurfLoopF chaos g fuel rest2 r.2
          (w0 :: "some" :: r.1 :: t.1, t.2)
      else if CONNECTORS.contains (pyLower w1) then
        let r1 := smurfify_word chaos g w0 k
        let r2 := smurfify_word chaos g w2 r1.2
        if is_smurfed r1.1 && is_smurfed r2.1 then
          if g r2.2 < mkRat 1 2 then
            let t := smurfLoopF chaos g fuel rest2 (r2.2 + 1)
            (r1.1 :: w1 :: w2 :: t.1, t.2)
          else
            let t := smurfLoopF chaos g fuel rest2 (r2.2 + 1)
            (w0 :: w1 :: r2.1 :: t.1, t.2)
        else
          let r := smurfify_word chaos g w0 r2.2
          let t := smurfLoopF chaos g fuel (w1 :: w2 :: rest2) r.2
          (r.1 :: t.1, t.2)
      else
        let r := smurfify_word chaos g w0 k
        let t := smurfLoopF chaos g fuel (w1 :: w2 :: rest2) r.2
        (r.1 :: t.1, t.2)
    | w0 :: rest =>
      let r := smurfify_word chaos g w0 k
      let t := smurfLoopF chaos g fuel rest r.2
      (r.1 :: t.1, t.2)

/-- The loop of `smurfify_line`, fuel instantiated to the token count. -/
def smurfLoop (chaos : ℚ) (g : ℕ → ℚ) (ws : List String) (k : ℕ) :
    List String × ℕ :=
  smurfLoopF chaos g ws.length ws k

/-- Python `line.split()`: split on whitespace runs, dropping empties;
accumulator carries the current token reversed. -/
def splitWsAux : List Char → List Char → List String
  | [], acc => if acc.isEmpty then [] else [⟨acc.reverse⟩]
  | c :: cs, acc =>
    if c.isWhitespace then
      if acc.isEmpty then splitWsAux cs []
      else (⟨acc.reverse⟩ : String) :: splitWsAux cs []
    else splitWsAux cs (c :: acc)

/-- Python `line.split()`. -/
def pySplit (s : String) : List String := splitWsAux s.data []

/-- Python `' '.join(result)`. -/
def joinSpaces : List String → String
  | [] => ""
  | [w] => w
  | w :: ws => w ++ " " ++ joinSpaces ws

/-- `smurfify_line(line)`: tokenize, run the scanning loop, rejoin with
single spaces.  Returns the line and the advanced random cursor. -/
def smurfify_line (chaos : ℚ) (g : ℕ → ℚ) (line : String) (k : ℕ) : String × ℕ :=
  let r := smurfLoop chaos g (pySplit line) k
  (joinSpaces r.1, r.2)

/-- The suffix chosen by the suffix rules of `apply_inflection`, on the
lowercased original (first match wins): "ing", else "ed", else "s" when
the word ends in "s" but not "ss", else none. -/
def suffixFor (lower : String) : String :=
  if pyEndsWith lower "ing" then "ing"
  else if pyEndsWith lower "ed" then "ed"
  else if pyEndsWith lower "s" && !pyEndsWith lower "ss" then "s"
  else ""

/-- The casing step of `apply_inflection`, applied to the suffixed result
and driven by the original's surface form. -/
def applyCasing (original r : String) : String :=
  if pyIsUpper original then pyUpper r
  else if pyIsTitle original then pyCapitalize r
  else r

/-! ### Helper lemmas: one-step unfoldings of the loop -/

/-- The loop emits nothing on an empty token list, for any fuel. -/
theorem smurfLoopF_nil (chaos : ℚ) (g : ℕ → ℚ) (n k : ℕ) :
    smurfLoopF chaos g n [] k = ([], k) := by
  cases n <;> rfl

/-- One-token unfolding: normal word. -/
theorem smurfLoopF_one (chaos : ℚ) (g : ℕ → ℚ) (n : ℕ) (w0 : String) (k : ℕ) :
    smurfLoopF chaos g (n + 1) [w0] k =
      ((smurfify_word chaos g w0 k).1 ::
          (smurfLoopF chaos g n [] (smurfify_word chaos g w0 k).2).1,
        (smurfLoopF chaos g n [] (smurfify_word chaos g w0 k).2).2) := rfl

/-- Two-token unfolding: normal word, continue with one token. -/
theorem smurfLoopF_two (chaos : ℚ) (g : ℕ → ℚ) (n : ℕ) (w0 w1 : String) (k : ℕ) :
    smurfLoopF chaos g (n + 1) [w0, w1] k =
      ((smurfify_word chaos g w0 k).1 ::
          (smurfLoopF chaos g n [w1] (smurfify_word chaos g w0 k).2).1,
        (smurfLoopF chaos g n [w1] (smurfify_word chaos g w0 k).2).2) := rfl

/-- Three-or-more-token unfolding: Rule A, then Rule B, then the normal
word (Rule B's no-collision case falls through to a fresh transform of
the first token, resuming at the second). -/
theorem smurfLoopF_cons3 (chaos : ℚ) (g : ℕ → ℚ) (n : ℕ)
    (w0 w1 w2 : String) (rest2 : List String) (k : ℕ) :
    smurfLoopF chaos g (n + 1) (w0 :: w1 :: w2 :: rest2) k =
      if ruleACond w0 w1 w2 then
        if g k < mkRat 1 2 then
          ((smurfify_word chaos g w0 (k + 1)).1 :: "some" :: w2 ::
              (smurfLoopF chaos g n rest2 (smurfify_word chaos g w0 (k + 1)).2).1,
            (smurfLoopF chaos g n rest2 (smurfify_word chaos g w0 (k + 1)).2).2)
        else
          (w0 :: "some" :: (smurfify_word chaos g w2 (k + 1)).1 ::
              (smurfLoopF chaos g n rest2 (smurfify_word chaos g w2 (k + 1)).2).1,
            (smurfLoopF chaos g n rest2 (smurfify_word chaos g w2 (k + 1)).2).2)
      else if CONNECTORS.contains (pyLower w1) then
        if is_smurfed (smurfify_word chaos g w0 k).1
            && is_smurfed (smurfify_word chaos g w2 (smurfify_word chaos g w0 k).2).1 then
          if g (smurfify_word chaos g w2 (smurfify_word chaos g w0 k).2).2 < mkRat 1 2 then
            ((smurfify_word chaos g w0 k).1 :: w1 :: w2 ::
                (smurfLoopF chaos g n rest2
                  ((smurfify_word chaos g w2 (smurfify_word chaos g w0 k).2).2 + 1)).1,
              (smurfLoopF chaos g n rest2
                ((smurfify_word chaos g w2 (smurfify_word chaos g w0 k).2).2 + 1)).2)
          else
            (w0 :: w1 :: (smurfify_word chaos g w2 (smurfify_word chaos g w0 k).2).1 ::
                (smurfLoopF chaos g n rest2
                  ((smurfify_word chaos g w2 (smurfify_word chaos g w0 k).2).2 + 1)).1,
              (smurfLoopF chaos g n rest2
                ((smurfify_word chaos g w2 (smurfify_word chaos g w0 k).2).2 + 1)).2)
        else
          ((smurfify_word chaos g w0
              (smurfify_word chaos g w2 (smurfify_word chaos g w0 k).2).2).1 ::
              (smurfLoopF chaos g n (w1 :: w2 :: rest2)
                (smurfify_word chaos g w0
                  (smurfify_word chaos g w2 (smurfify_word chaos g w0 k).2).2).2).1,
            (smurfLoopF chaos g n (w1 :: w2 :: rest2)
              (smurfify_word chaos g w0
                (smurfify_word chaos g w2 (smurfify_word chaos g w0 k).2).2).2).2)
      else
        ((smurfify_word chaos g w0 k).1 ::
            (smurfLoopF chaos g n (w1 :: w2 :: rest2) (smurfify_word chaos g w0 k).2).1,
          (smurfLoopF chaos g n (w1 :: w2 :: rest2) (smurfify_word chaos g w0 k).2).2) := rfl

/-- Any fuel at least the token count runs the loop to completion:
`smurfLoopF` above `ws.length` agrees with `smurfLoop`. -/
theorem smurfLoopF_eq_smurfLoop (chaos : ℚ) (g : ℕ → ℚ) :
    ∀ n ws k, List.length ws ≤ n →
      smurfLoopF chaos g n ws k = smurfLoop chaos g ws k := by
  intro n
  induction n using Nat.strong_induction_on with
  | _ n ih =>
    intro ws k hle
    rcases ws with _ | ⟨w0, _ | ⟨w1, _ | ⟨w2, rest2⟩⟩⟩
    · rw [smurfLoopF_nil]; rfl
    · obtain ⟨m, rfl⟩ : ∃ m, n = m + 1 := ⟨n - 1, by simp at hle; omega⟩
      show _ = smurfLoopF chaos g ([w0].length) [w0] k
      rw [List.length_singleton, smurfLoopF_one, smurfLoopF_one,
        smurfLoopF_nil, smurfLoopF_nil]
    · obtain ⟨m, rfl⟩ : ∃ m, n = m + 1 := ⟨n - 1, by simp at hle; omega⟩
      have hm : 1 ≤ m := by simp at hle; omega
      show _ = smurfLoopF chaos g ([w0, w1].length) [w0, w1] k
      have h2 : [w0, w1].length = 1 + 1 := rfl
      rw [h2, smurfLoopF_two, smurfLoopF_two,
        ih m (by omega) [w1] _ (by simp [hm]),
        ih 1 (by omega) [w1] _ (by simp)]
    · obtain ⟨m, rfl⟩ : ∃ m, n = m + 1 := ⟨n - 1, by simp at hle; omega⟩
      have hlen : rest2.length + 3 ≤ m + 1 := by simpa using hle
      show _ = smurfLoopF chaos g ((w0 :: w1 :: w2 :: rest2).length)
        (w0 :: w1 :: w2 :: rest2) k
      have h3 : (w0 :: w1 :: w2 :: rest2).length = (rest2.length + 2) + 1 := by
        simp <;> omega
      rw [h3, smurfLoopF_cons3, smurfLoopF_cons3]
      by_cases hA : ruleACond w0 w1 w2
      · rw [if_pos hA, if_pos hA]
        by_cases hg : g k < mkRat 1 2
        · rw [if_pos hg, if_pos hg,
            ih m (by omega) rest2 _ (by omega),
            ih (rest2.length + 2) (by omega) rest2 _ (by omega)]
        · rw [if_neg hg, if_neg hg,
            ih m (by omega) rest2 _ (by omega),
            ih (rest2.length + 2) (by omega) rest2 _ (by omega)]
      · rw [if_neg hA, if_neg hA]
        by_cases hC : CONNECTORS.contains (pyLower w1)
        · rw [if_pos hC, if_pos hC]
          by_cases hS : (is_smurfed (smurfify_word chaos g w0 k).1
              && is_smurfed (smurfify_word chaos g w2
                (smurfify_word chaos g w0 k).2).1) = true
          · rw [if_pos hS, if_pos hS]
            by_cases hg : g (smurfify_word chaos g w2
                (smurfify_word chaos g w0 k).2).2 < mkRat 1 2
            · rw [if_pos hg, if_pos hg,
                ih m (by omega) rest2 _ (by omega),
                ih (rest2.length + 2) (by omega) rest2 _ (by omega)]
            · rw [if_neg hg, if_neg hg,
                ih m (by omega) rest2 _ (by omega),
                ih (rest2.length + 2) (by omega) rest2 _ (by omega)]
          · rw [if_neg hS, if_neg hS,
              ih m (by omega) (w1 :: w2 :: rest2) _ (by simp <;> omega),
              ih (rest2.length + 2) (by omega) (w1 :: w2 :: rest2) _ (by simp <;> omega)]
        · rw [if_neg hC, if_neg hC,
            ih m (by omega) (w1 :: w2 :: rest2) _ (by simp <;> omega),
            ih (rest2.length + 2) (by omega) (w1 :: w2 :: rest2) _ (by simp <;> omega)]


/-- Empty token list: the loop emits nothing. -/
theorem smurfLoop_nil (chaos : ℚ) (g : ℕ → ℚ) (k : ℕ) :
    smurfLoop chaos g [] k = ([], k) := rfl

/-- One step of the scanning loop at a three-or-more-token window, with
the continuations expressed through `smurfLoop` itself: Rule A consumes
three tokens; Rule B's collision case consumes three; its no-collision
fallback re-transforms the first token afresh and consumes only that
one; otherwise the normal single-word step. -/
theorem smurfLoop_cons3 (chaos : ℚ) (g : ℕ → ℚ)
    (w0 w1 w2 : String) (rest2 : List String) (k : ℕ) :
    smurfLoop chaos g (w0 :: w1 :: w2 :: rest2) k =
      if ruleACond w0 w1 w2 then
        if g k < mkRat 1 2 then
          ((smurfify_word chaos g w0 (k + 1)).1 :: "some" :: w2 ::
              (smurfLoop chaos g rest2 (smurfify_word chaos g w0 (k + 1)).2).1,
            (smurfLoop chaos g rest2 (smurfify_word chaos g w0 (k + 1)).2).2)
        else
          (w0 :: "some" :: (smurfify_word chaos g w2 (k + 1)).1 ::
              (smurfLoop chaos g rest2 (smurfify_word chaos g w2 (k + 1)).2).1,
            (smurfLoop chaos g rest2 (smurfify_word chaos g w2 (k + 1)).2).2)
      else if CONNECTORS.contains (pyLower w1) then
        if is_smurfed (smurfify_word chaos g w0 k).1
            && is_smurfed (smurfify_word chaos g w2 (smurfify_word chaos g w0 k).2).1 then
          if g (smurfify_word chaos g w2 (smurfify_word chaos g w0 k).2).2 < mkRat 1 2 then
            ((smurfify_word chaos g w0 k).1 :: w1 :: w2 ::
                (smurfLoop chaos g rest2
                  ((smurfify_word chaos g w2 (smurfify_word chaos g w0 k).2).2 + 1)).1,
              (smurfLoop chaos g rest2
                ((smurfify_word chaos g w2 (smurfify_word chaos g w0 k).2).2 + 1)).2)
          else
            (w0 :: w1 :: (smurfify_word chaos g w2 (smurfify_word chaos g w0 k).2).1 ::
                (smurfLoop chaos g rest2
                  ((smurfify_word chaos g w2 (smurfify_word chaos g w0 k).2).2 + 1)).1,
              (smurfLoop chaos g rest2
                ((smurfify_word chaos g w2 (smurfify_word chaos g w0 k).2).2 + 1)).2)
        else
          ((smurfify_word chaos g w0
              (smurfify_word chaos g w2 (smurfify_word chaos g w0 k).2).2).1 ::
              (smurfLoop chaos g (w1 :: w2 :: rest2)
                (smurfify_word chaos g w0
                  (smurfify_word chaos g w2 (smurfify_word chaos g w0 k).2).2).2).1,
            (smurfLoop chaos g (w1 :: w2 :: rest2)
              (smurfify_word chaos g w0
                (smurfify_word chaos g w2 (smurfify_word chaos g w0 k).2).2).2).2)
      else
        ((smurfify_word chaos g w0 k).1 ::
            (smurfLoop chaos g (w1 :: w2 :: rest2) (smurfify_word chaos g w0 k).2).1,
          (smurfLoop chaos g (w1 :: w2 :: rest2) (smurfify_word chaos g w0 k).2).2) := by
  have e2 : ∀ c, smurfLoopF chaos g (rest2.length + 2) rest2 c =
      smurfLoop chaos g rest2 c :=
    fun c => smurfLoopF_eq_smurfLoop chaos g _ _ c (by omega)
  have e1 : ∀ c, smurfLoopF chaos g (rest2.length + 2) (w1 :: w2 :: rest2) c =
      smurfLoop chaos g (w1 :: w2 :: rest2) c :=
    fun c => smurfLoopF_eq_smurfLoop chaos g _ _ c (by simp <;> omega)
  have h3 : (w0 :: w1 :: w2 :: rest2).length = (rest2.length + 2) + 1 := by
    simp <;> omega
  show smurfLoopF chaos g ((w0 :: w1 :: w2 :: rest2).length)
    (w0 :: w1 :: w2 :: rest2) k = _
  rw [h3, smurfLoopF_cons3]
  simp only [e1, e2]

/-- The regex split reassembles: a matched token is its base followed by
its punctuation. -/
theorem matchToken_append (w b p : String) (h : matchToken w = some (b, p)) :
    b ++ p = w := by
  simp only [matchToken] at h
  split at h
  · obtain ⟨hb, hp⟩ := Prod.mk.injEq .. ▸ Option.some.injEq .. ▸ h
    subst hb; subst hp
    show (⟨_ ++ _⟩ : String) = w
    rw [List.takeWhile_append_dropWhile]
  · exact absurd h (by simp)

/-- The hyphen split is never the empty list of pieces. -/
theorem splitHyphen_ne_nil : ∀ l : List Char, splitHyphen l ≠ [] := by
  intro l
  cases l with
  | nil => simp [splitHyphen]
  | cons c cs =>
    simp only [splitHyphen]
    split <;> simp

/-- Rejoining the hyphen split reproduces the base. -/
theorem joinHyphen_splitHyphen : ∀ l : List Char, joinHyphen (splitHyphen l) = l := by
  intro l
  induction l with
  | nil => rfl
  | cons c cs ih =>
    rcases hsp : splitHyphen cs with _ | ⟨p, ps⟩
    · exact absurd hsp (splitHyphen_ne_nil cs)
    · rw [hsp] at ih
      simp only [splitHyphen, hsp]
      by_cases hc : (c == '-') = true
      · rw [if_pos hc]
        have hce : c = '-' := by simpa using hc
        subst hce
        simp only [joinHyphen, List.nil_append]
        rw [ih]
      · rw [if_neg hc]
        simp only [List.headD_cons, List.tail_cons]
        cases ps with
        | nil =>
          simp only [joinHyphen] at ih ⊢
          rw [ih]
        | cons q qs =>
          simp only [joinHyphen] at ih ⊢
          rw [List.cons_append, ih]

/-- A token outside the regex shape passes through unchanged, with no
draws consumed. -/
theorem smurfify_word_nomatch (chaos : ℚ) (g : ℕ → ℚ) (w : String) (k : ℕ)
    (h : matchToken w = none) : smurfify_word chaos g w k = (w, k) := by
  simp only [smurfify_word, h]

/-- A matched token keeps its trailing punctuation verbatim. -/
theorem smurfify_word_punct (chaos : ℚ) (g : ℕ → ℚ) (w b p : String) (k : ℕ)
    (h : matchToken w = some (b, p)) :
    ∃ s : String, (smurfify_word chaos g w k).1 = s ++ p := by
  simp only [smurfify_word, h]
  exact ⟨_, rfl⟩

/-- Branch behaviour of the idiom line "fix some bug": one draw decides
which side is transformed. -/
theorem loop_fix_some_bug (chaos : ℚ) (g : ℕ → ℚ) (k : ℕ) :
    smurfLoop chaos g ["fix", "some", "bug"] k =
      if g k < mkRat 1 2 then (["smurf", "some", "bug"], k + 1)
      else (["fix", "some", "smurf"], k + 1) := rfl

/-- Branch behaviour of the collision line "fix and build": both sides
speculatively smurf, one draw decides which one is kept. -/
theorem loop_fix_and_build (chaos : ℚ) (g : ℕ → ℚ) (k : ℕ) :
    smurfLoop chaos g ["fix", "and", "build"] k =
      if g k < mkRat 1 2 then (["smurf", "and", "build"], k + 1)
      else (["fix", "and", "smurf"], k + 1) := rfl

/-- Line-level branch behaviour of "fix some bug". -/
theorem line_fix_some_bug (chaos : ℚ) (g : ℕ → ℚ) (k : ℕ) :
    smurfify_line chaos g "fix some bug" k =
      if g k < mkRat 1 2 then ("smurf some bug", k + 1)
      else ("fix some smurf", k + 1) := by
  show (joinSpaces (smurfLoop chaos g ["fix", "some", "bug"] k).1,
    (smurfLoop chaos g ["fix", "some", "bug"] k).2) = _
  rw [loop_fix_some_bug]
  by_cases h : g k < mkRat 1 2
  · rw [if_pos h, if_pos h]; rfl
  · rw [if_neg h, if_neg h]; rfl

/-- Line-level branch behaviour of "fix and build". -/
theorem line_fix_and_build (chaos : ℚ) (g : ℕ → ℚ) (k : ℕ) :
    smurfify_line chaos g "fix and build" k =
      if g k < mkRat 1 2 then ("smurf and build", k + 1)
      else ("fix and smurf", k + 1) := by
  show (joinSpaces (smurfLoop chaos g ["fix", "and", "build"] k).1,
    (smurfLoop chaos g ["fix", "and", "build"] k).2) = _
  rw [loop_fix_and_build]
  by_cases h : g k < mkRat 1 2
  · rw [if_pos h, if_pos h]; rfl
  · rw [if_neg h, if_neg h]; rfl

/-! ### Claim theorems -/

/-- C1: for every chaos constant and every stream of random draws,
`smurfify_line` on "fix some bug" yields either "smurf some bug" or
"fix some smurf" — exactly one flank transformed, the middle token
"some" unchanged — and both outcomes are reached by concrete draw
streams; the two outcomes are distinct. -/
theorem ruleA_fix_some_bug_exclusive :
    (∀ (chaos : ℚ) (g : ℕ → ℚ) (k : ℕ),
        (smurfify_line chaos g "fix some bug" k).1 = "smurf some bug" ∨
        (smurfify_line chaos g "fix some bug" k).1 = "fix some smurf")
    ∧ (smurfify_line CHAOS_CHANCE (fun _ => 0) "fix some bug" 0).1 = "smurf some bug"
    ∧ (smurfify_line CHAOS_CHANCE (fun _ => 1) "fix some bug" 0).1 = "fix some smurf"
    ∧ (("smurf some bug" : String) == "fix some smurf") = false := by
  refine ⟨fun chaos g k => ?_, by decide, by decide, by decide⟩
  rw [line_fix_some_bug]
  by_cases h : g k < mkRat 1 2
  · exact Or.inl (by rw [if_pos h])
  · exact Or.inr (by rw [if_neg h])

/-- C2: for every chaos constant and draw stream, "fix and build" comes
out as "smurf and build" or "fix and smurf", never "smurf and smurf";
and in general, when a connector window collides (both speculative
transforms start with "smurf"), one draw decides which neighbor keeps
its transform while the other reverts to its original surface form, the
connector emitted unchanged. -/
theorem ruleB_fix_and_build_no_double :
    (∀ (chaos : ℚ) (g : ℕ → ℚ) (k : ℕ),
        (smurfify_line chaos g "fix and build" k).1 = "smurf and build" ∨
        (smurfify_line chaos g "fix and build" k).1 = "fix and smurf")
    ∧ (∀ (chaos : ℚ) (g : ℕ → ℚ) (k : ℕ),
        ((smurfify_line chaos g "fix and build" k).1 == "smurf and smurf") = false)
    ∧ (∀ (chaos : ℚ) (g : ℕ → ℚ) (w0 w1 w2 : String) (rest : List String) (k : ℕ),
        ruleACond w0 w1 w2 = false →
        CONNECTORS.contains (pyLower w1) = true →
        is_smurfed (smurfify_word chaos g w0 k).1 = true →
        is_smurfed (smurfify_word chaos g w2 (smurfify_word chaos g w0 k).2).1 = true →
        smurfLoop chaos g (w0 :: w1 :: w2 :: rest) k =
          if g (smurfify_word chaos g w2 (smurfify_word chaos g w0 k).2).2 < mkRat 1 2 then
            ((smurfify_word chaos g w0 k).1 :: w1 :: w2 ::
                (smurfLoop chaos g rest
                  ((smurfify_word chaos g w2 (smurfify_word chaos g w0 k).2).2 + 1)).1,
              (smurfLoop chaos g rest
                ((smurfify_word chaos g w2 (smurfify_word chaos g w0 k).2).2 + 1)).2)
          else
            (w0 :: w1 :: (smurfify_word chaos g w2 (smurfify_word chaos g w0 k).2).1 ::
                (smurfLoop chaos g rest
                  ((smurfify_word chaos g w2 (smurfify_word chaos g w0 k).2).2 + 1)).1,
              (smurfLoop chaos g rest
                ((smurfify_word chaos g w2 (smurfify_word chaos g w0 k).2).2 + 1)).2)) := by
  refine ⟨fun chaos g k => ?_, fun chaos g k => ?_,
    fun chaos g w0 w1 w2 rest k hA hC h1 h2 => ?_⟩
  · rw [line_fix_and_build]
    by_cases h : g k < mkRat 1 2
    · exact Or.inl (by rw [if_pos h])
    · exact Or.inr (by rw [if_neg h])
  · rw [line_fix_and_build]
    by_cases h : g k < mkRat 1 2
    · rw [if_pos h]
      exact (by decide : (("smurf and build" : String) == "smurf and smurf") = false)
    · rw [if_neg h]
      exact (by decide : (("fix and smurf" : String) == "smurf and smurf") = false)
  · rw [smurfLoop_cons3, if_neg (by simp only [hA]; decide), if_pos hC,
      if_pos (by simp only [h1, h2]; decide)]

/-- Witness for C2: the collision step applied to the concrete line
"fix and build" with the constant draw 1 keeps the right neighbor. -/
theorem ruleB_fix_and_build_no_double_witness :
    smurfLoop CHAOS_CHANCE (fun _ => 1) ["fix", "and", "build"] 0 =
      (["fix", "and", "smurf"], 1) := by
  rw [ruleB_fix_and_build_no_double.2.2 CHAOS_CHANCE (fun _ => 1) "fix" "and" "build" [] 0
    (by decide) (by decide) (by decide) (by decide)]
  decide

/-- C3: `apply_inflection` decomposes as exactly one suffix rule in the
source's priority order on the lowercased original, followed by the
casing step driven by the original; and the three documented examples
hold. -/
theorem inflection_structure :
    (∀ r o : String, apply_inflection r o = applyCasing o (r ++ suffixFor (pyLower o)))
    ∧ apply_inflection "smurf" "Running" = "Smurfing"
    ∧ apply_inflection "smurf" "FIXED" = "SMURFED"
    ∧ apply_inflection "smurfy" "bugs" = "smurfys" := by
  refine ⟨fun r o => ?_, by decide, by decide, by decide⟩
  simp only [apply_inflection, applyCasing, suffixFor]
  split_ifs <;> simp [String.append_empty]

/-- C4 counterexample: "fixing" is in none of the category sets, so with
a draw that misses the chaos chance the word is returned unchanged —
`transform("fixing")` is not "smurfing" for every draw, contradicting
the claim's example. -/
theorem transform_fixing_not_smurfing :
    ((smurfify_word CHAOS_CHANCE (fun _ => mkRat 1 2) "fixing" 0).1 == "smurfing") = false
    ∧ (smurfify_word CHAOS_CHANCE (fun _ => mkRat 1 2) "fixing" 0).1 = "fixing" := by
  decide

/-- C4 (amended): membership is checked case-insensitively in source
order Verb/Noun, then Adjective, then Exclaim, the earliest-checked
category winning ("nice" sits in both the adjective and exclaim sets and
gets the adjective stem); Verb/Noun yield stem "smurf" inflected,
Adjective "smurfy" inflected, Exclaim the literal "Smurf!";
`transform("fix")` is "smurf" and `transform("BROKEN")` is "SMURFY",
while "fixing" — being unclassified — is "fixing" when the chaos draw
does not fire and "smurfing" when it does. -/
theorem classification_precedence_amended :
    (∀ (chaos : ℚ) (g : ℕ → ℚ) (base : String) (k : ℕ),
        (VERBS.contains (pyLower base) || NOUNS.contains (pyLower base)) = true →
        smurfify_base chaos g base k = (apply_inflection "smurf" base, k))
    ∧ (∀ (chaos : ℚ) (g : ℕ → ℚ) (base : String) (k : ℕ),
        (VERBS.contains (pyLower base) || NOUNS.contains (pyLower base)) = false →
        ADJECTIVES.contains (pyLower base) = true →
        smurfify_base chaos g base k = (apply_inflection "smurfy" base, k))
    ∧ (∀ (chaos : ℚ) (g : ℕ → ℚ) (base : String) (k : ℕ),
        (VERBS.contains (pyLower base) || NOUNS.contains (pyLower base)) = false →
        ADJECTIVES.contains (pyLower base) = false →
        EXCLAIMS.contains (pyLower base) = true →
        smurfify_base chaos g base k = ("Smurf!", k))
    ∧ (ADJECTIVES.contains "nice" = true ∧ EXCLAIMS.contains "nice" = true
        ∧ ∀ (chaos : ℚ) (g : ℕ → ℚ) (k : ℕ),
            smurfify_base chaos g "nice" k = ("smurfy", k))
    ∧ (∀ (chaos : ℚ) (g : ℕ → ℚ) (k : ℕ),
        smurfify_word chaos g "fix" k = ("smurf", k))
    ∧ (∀ (chaos : ℚ) (g : ℕ → ℚ) (k : ℕ),
        smurfify_word chaos g "BROKEN" k = ("SMURFY", k))
    ∧ (∀ (chaos : ℚ) (g : ℕ → ℚ) (k : ℕ), ¬ g k < chaos →
        smurfify_word chaos g "fixing" k = ("fixing", k + 1))
    ∧ (∀ (chaos : ℚ) (g : ℕ → ℚ) (k : ℕ), g k < chaos →
        smurfify_word chaos g "fixing" k = ("smurfing", k + 1)) := by
  refine ⟨fun chaos g base k h => ?_, fun chaos g base k h1 h2 => ?_,
    fun chaos g base k h1 h2 h3 => ?_,
    ⟨by decide, by decide, fun chaos g k => rfl⟩,
    fun chaos g k => rfl, fun chaos g k => rfl,
    fun chaos g k h => ?_, fun chaos g k h => ?_⟩
  · simp only [smurfify_base]
    rw [if_pos h]
  · simp only [smurfify_base]
    rw [if_neg (by simp only [h1]; decide), if_pos h2]
  · simp only [smurfify_base]
    rw [if_neg (by simp only [h1]; decide), if_neg (by simp only [h2]; decide), if_pos h3]
  · have hb : smurfify_base chaos g "fixing" k = ("fixing", k + 1) := by
      show (if g k < chaos then (apply_inflection "smurf" "fixing", k + 1)
        else ("fixing", k + 1)) = _
      rw [if_neg h]
    show ((⟨joinHyphen [(smurfify_base chaos g "fixing" k).1.data]⟩ : String) ++ "",
      (smurfify_base chaos g "fixing" k).2) = _
    rw [hb]
    rfl
  · have hb : smurfify_base chaos g "fixing" k =
        (apply_inflection "smurf" "fixing", k + 1) := by
      show (if g k < chaos then (apply_inflection "smurf" "fixing", k + 1)
        else ("fixing", k + 1)) = _
      rw [if_pos h]
    show ((⟨joinHyphen [(smurfify_base chaos g "fixing" k).1.data]⟩ : String) ++ "",
      (smurfify_base chaos g "fixing" k).2) = _
    rw [hb]
    rfl

/-- Witness for C4 (amended): the classification branches and both
chaos branches of "fixing" evaluated at concrete inputs. -/
theorem classification_precedence_amended_witness :
    smurfify_base CHAOS_CHANCE (fun _ => 1) "bug" 5 = (apply_inflection "smurf" "bug", 5)
    ∧ smurfify_base CHAOS_CHANCE (fun _ => 1) "BROKEN" 5
        = (apply_inflection "smurfy" "BROKEN", 5)
    ∧ smurfify_base CHAOS_CHANCE (fun _ => 1) "wow" 5 = ("Smurf!", 5)
    ∧ smurfify_word CHAOS_CHANCE (fun _ => 1) "fixing" 0 = ("fixing", 0 + 1)
    ∧ smurfify_word CHAOS_CHANCE (fun _ => 0) "fixing" 0 = ("smurfing", 0 + 1) :=
  ⟨classification_precedence_amended.1 CHAOS_CHANCE (fun _ => 1) "bug" 5 (by decide),
   classification_precedence_amended.2.1 CHAOS_CHANCE (fun _ => 1) "BROKEN" 5
     (by decide) (by decide),
   classification_precedence_amended.2.2.1 CHAOS_CHANCE (fun _ => 1) "wow" 5
     (by decide) (by decide) (by decide),
   classification_precedence_amended.2.2.2.2.2.2.1 CHAOS_CHANCE (fun _ => 1) 0 (by decide),
   classification_precedence_amended.2.2.2.2.2.2.2 CHAOS_CHANCE (fun _ => 0) 0 (by decide)⟩

/-- C5 counterexample: "nice" is in the exclaim set, yet its substitution
is the adjective form "smurfy", not the literal marker "Smurf!" — the
claim's universal quantification over the exclaim set fails. -/
theorem exclaim_nice_not_marker :
    EXCLAIMS.contains (pyLower "nice") = true
    ∧ ((smurfify_word CHAOS_CHANCE (fun _ => 1) "nice" 0).1 == "Smurf!") = false
    ∧ (smurfify_word CHAOS_CHANCE (fun _ => 1) "nice" 0).1 = "smurfy" := by
  decide

/-- C5 (amended): for every word in the exclaim set that is not also in
the earlier-checked verb, noun or adjective sets, substitution returns
the literal marker "Smurf!" with no suffix or casing inflection,
whatever the original's casing; trailing punctuation is appended after
the marker, so `transform("wow!")` is the literal "Smurf!!". -/
theorem exclaim_bypass_amended :
    (∀ (chaos : ℚ) (g : ℕ → ℚ) (base : String) (k : ℕ),
        (VERBS.contains (pyLower base) || NOUNS.contains (pyLower base)) = false →
        ADJECTIVES.contains (pyLower base) = false →
        EXCLAIMS.contains (pyLower base) = true →
        smurfify_base chaos g base k = ("Smurf!", k))
    ∧ (∀ (chaos : ℚ) (g : ℕ → ℚ) (k : ℕ),
        smurfify_word chaos g "wow!" k = ("Smurf!!", k))
    ∧ (∀ (chaos : ℚ) (g : ℕ → ℚ) (k : ℕ),
        smurfify_word chaos g "WOW" k = ("Smurf!", k))
    ∧ (∀ (chaos : ℚ) (g : ℕ → ℚ) (k : ℕ),
        smurfify_word chaos g "Hey." k = ("Smurf!.", k)) := by
  refine ⟨fun chaos g base k h1 h2 h3 => ?_, fun chaos g k => rfl,
    fun chaos g k => rfl, fun chaos g k => rfl⟩
  simp only [smurfify_base]
  rw [if_neg (by simp only [h1]; decide), if_neg (by simp only [h2]; decide), if_pos h3]

/-- Witness for C5 (amended): the exclaim branch evaluated at "WOW". -/
theorem exclaim_bypass_amended_witness :
    smurfify_base CHAOS_CHANCE (fun _ => 1) "WOW" 7 = ("Smurf!", 7) :=
  exclaim_bypass_amended.1 CHAOS_CHANCE (fun _ => 1) "WOW" 7
    (by decide) (by decide) (by decide)

/-- C6: a matched token splits into base and punctuation that rejoin to
the original token; the hyphen split rejoins to the base; a token
outside the shape passes through unchanged; and a matched token's
transform ends with its original punctuation verbatim. -/
theorem token_roundtrip :
    (∀ w b p : String, matchToken w = some (b, p) → b ++ p = w)
    ∧ (∀ l : List Char, joinHyphen (splitHyphen l) = l)
    ∧ (∀ (chaos : ℚ) (g : ℕ → ℚ) (w : String) (k : ℕ),
        matchToken w = none → smurfify_word chaos g w k = (w, k))
    ∧ (∀ (chaos : ℚ) (g : ℕ → ℚ) (w b p : String) (k : ℕ),
        matchToken w = some (b, p) →
        ∃ s : String, (smurfify_word chaos g w k).1 = s ++ p) :=
  ⟨matchToken_append, joinHyphen_splitHyphen,
   fun chaos g w k h => smurfify_word_nomatch chaos g w k h,
   fun chaos g w b p k h => smurfify_word_punct chaos g w b p k h⟩

/-- Witness for C6: round trip and punctuation preservation at concrete
tokens. -/
theorem token_roundtrip_witness :
    ("wow" : String) ++ "!" = "wow!"
    ∧ smurfify_word CHAOS_CHANCE (fun _ => 0) "😀" 3 = ("😀", 3)
    ∧ ∃ s : String, (smurfify_word CHAOS_CHANCE (fun _ => 0) "good," 3).1 = s ++ "," :=
  ⟨token_roundtrip.1 "wow!" "wow" "!" (by decide),
   token_roundtrip.2.2.1 CHAOS_CHANCE (fun _ => 0) "😀" 3 (by decide),
   token_roundtrip.2.2.2 CHAOS_CHANCE (fun _ => 0) "good," "good" "," 3 (by decide)⟩

/-- C7: with the chaos constant 1 every unclassified all-alphabetic word
is transformed (stem "smurf" inflected) for every in-range draw; with
the constant 0 every unclassified word is left unchanged for every
nonnegative draw; classified words do not depend on the constant. -/
theorem chaos_extremes :
    (∀ (g : ℕ → ℚ) (base : String) (k : ℕ),
        VERBS.contains (pyLower base) = false →
        NOUNS.contains (pyLower base) = false →
        ADJECTIVES.contains (pyLower base) = false →
        EXCLAIMS.contains (pyLower base) = false →
        pyIsAlphaStr base = true → g k < 1 →
        smurfify_base 1 g base k = (apply_inflection "smurf" base, k + 1))
    ∧ (∀ (g : ℕ → ℚ) (base : String) (k : ℕ),
        VERBS.contains (pyLower base) = false →
        NOUNS.contains (pyLower base) = false →
        ADJECTIVES.contains (pyLower base) = false →
        EXCLAIMS.contains (pyLower base) = false →
        0 ≤ g k →
        (smurfify_base 0 g base k).1 = base)
    ∧ (∀ (q1 q2 : ℚ) (g : ℕ → ℚ) (base : String) (k : ℕ),
        VERBS.contains (pyLower base) = true ∨ NOUNS.contains (pyLower base) = true ∨
          ADJECTIVES.contains (pyLower base) = true ∨
          EXCLAIMS.contains (pyLower base) = true →
        smurfify_base q1 g base k = smurfify_base q2 g base k) := by
  refine ⟨fun g base k h1 h2 h3 h4 h5 h6 => ?_, fun g base k h1 h2 h3 h4 h5 => ?_,
    fun q1 q2 g base k h => ?_⟩
  · simp only [smurfify_base]
    rw [if_neg (by simp only [h1, h2]; decide), if_neg (by simp only [h3]; decide),
      if_neg (by simp only [h4]; decide), if_pos h5, if_pos h6]
  · simp only [smurfify_base]
    rw [if_neg (by simp only [h1, h2]; decide), if_neg (by simp only [h3]; decide),
      if_neg (by simp only [h4]; decide)]
    by_cases ha : pyIsAlphaStr base = true
    · rw [if_pos ha, if_neg (not_lt.mpr h5)]
    · rw [if_neg ha]
  · simp only [smurfify_base]
    by_cases c1 : (VERBS.contains (pyLower base) || NOUNS.contains (pyLower base)) = true
    · rw [if_pos c1, if_pos c1]
    · rw [if_neg c1, if_neg c1]
      by_cases c2 : ADJECTIVES.contains (pyLower base) = true
      · rw [if_pos c2, if_pos c2]
      · rw [if_neg c2, if_neg c2]
        by_cases c3 : EXCLAIMS.contains (pyLower base) = true
        · rw [if_pos c3, if_pos c3]
        · exfalso
          rcases h with h | h | h | h
          · exact c1 (by rw [h, Bool.true_or])
          · exact c1 (by rw [h, Bool.or_true])
          · exact c2 h
          · exact c3 h

/-- Witness for C7: the two chaos extremes on the unclassified word
"zzz", and chaos-independence on the verb "fix". -/
theorem chaos_extremes_witness :
    smurfify_base 1 (fun _ => 0) "zzz" 2 = (apply_inflection "smurf" "zzz", 2 + 1)
    ∧ (smurfify_base 0 (fun _ => 0) "zzz" 2).1 = "zzz"
    ∧ smurfify_base (mkRat 1 20) (fun _ => 0) "fix" 2
        = smurfify_base (mkRat 1 2) (fun _ => 0) "fix" 2 :=
  ⟨chaos_extremes.1 (fun _ => 0) "zzz" 2 (by decide) (by decide) (by decide) (by decide)
     (by decide) (by decide),
   chaos_extremes.2.1 (fun _ => 0) "zzz" 2 (by decide) (by decide) (by decide) (by decide)
     (by decide),
   chaos_extremes.2.2 (mkRat 1 20) (mkRat 1 2) (fun _ => 0) "fix" 2 (Or.inl (by decide))⟩

/-- C8: when the connector window matches but the speculative transforms
do not both start with "smurf", the step emits a fresh transform of the
first token only and the scan resumes at the second token; whereas
whenever Rule A fires it consumes exactly three tokens. -/
theorem ruleB_fallback_one_token :
    (∀ (chaos : ℚ) (g : ℕ → ℚ) (w0 w1 w2 : String) (rest : List String) (k : ℕ),
        ruleACond w0 w1 w2 = false →
        CONNECTORS.contains (pyLower w1) = true →
        (is_smurfed (smurfify_word chaos g w0 k).1
          && is_smurfed (smurfify_word chaos g w2 (smurfify_word chaos g w0 k).2).1) = false →
        smurfLoop chaos g (w0 :: w1 :: w2 :: rest) k =
          ((smurfify_word chaos g w0
              (smurfify_word chaos g w2 (smurfify_word chaos g w0 k).2).2).1 ::
              (smurfLoop chaos g (w1 :: w2 :: rest)
                (smurfify_word chaos g w0
                  (smurfify_word chaos g w2 (smurfify_word chaos g w0 k).2).2).2).1,
            (smurfLoop chaos g (w1 :: w2 :: rest)
              (smurfify_word chaos g w0
                (smurfify_word chaos g w2 (smurfify_word chaos g w0 k).2).2).2).2))
    ∧ (∀ (chaos : ℚ) (g : ℕ → ℚ) (w0 w1 w2 : String) (rest : List String) (k : ℕ),
        ruleACond w0 w1 w2 = true →
        smurfLoop chaos g (w0 :: w1 :: w2 :: rest) k =
          if g k < mkRat 1 2 then
            ((smurfify_word chaos g w0 (k + 1)).1 :: "some" :: w2 ::
                (smurfLoop chaos g rest (smurfify_word chaos g w0 (k + 1)).2).1,
              (smurfLoop chaos g rest (smurfify_word chaos g w0 (k + 1)).2).2)
          else
            (w0 :: "some" :: (smurfify_word chaos g w2 (k + 1)).1 ::
                (smurfLoop chaos g rest (smurfify_word chaos g w2 (k + 1)).2).1,
              (smurfLoop chaos g rest (smurfify_word chaos g w2 (k + 1)).2).2)) := by
  refine ⟨fun chaos g w0 w1 w2 rest k hA hC hS => ?_,
    fun chaos g w0 w1 w2 rest k hA => ?_⟩
  · rw [smurfLoop_cons3, if_neg (by simp only [hA]; decide), if_pos hC,
      if_neg (by simp only [hS]; decide)]
  · rw [smurfLoop_cons3, if_pos hA]

/-- Witness for C8: the fallback consumes one token on
"xyzzy and build" (the connector "and" later eats its own chaos draw),
and Rule A consumes three on "fix some bug". -/
theorem ruleB_fallback_one_token_witness :
    smurfLoop CHAOS_CHANCE (fun _ => 1) ["xyzzy", "and", "build"] 0 =
      (["xyzzy", "and", "smurf"], 3)
    ∧ smurfLoop CHAOS_CHANCE (fun _ => 1) ["fix", "some", "bug"] 0 =
      (["fix", "some", "smurf"], 1) := by
  constructor
  · rw [ruleB_fallback_one_token.1 CHAOS_CHANCE (fun _ => 1) "xyzzy" "and" "build" [] 0
      (by decide) (by decide) (by decide)]
    decide
  · rw [ruleB_fallback_one_token.2 CHAOS_CHANCE (fun _ => 1) "fix" "some" "bug" [] 0
      (by decide)]
    decide

/-- C9: the line transform is total by construction in this embedding;
the empty line maps to the empty line, tokens outside the regex shape
pass through `smurfify_word` unchanged, a non-alphabetic unclassified
base passes through `smurfify_base` unchanged with no draw, and the
line "😀 123" passes through whole for every chaos constant and
stream. -/
theorem line_total_passthrough :
    (∀ (chaos : ℚ) (g : ℕ → ℚ) (k : ℕ), smurfify_line chaos g "" k = ("", k))
    ∧ (∀ (chaos : ℚ) (g : ℕ → ℚ) (w : String) (k : ℕ),
        matchToken w = none → smurfify_word chaos g w k = (w, k))
    ∧ (∀ (chaos : ℚ) (g : ℕ → ℚ) (base : String) (k : ℕ),
        VERBS.contains (pyLower base) = false →
        NOUNS.contains (pyLower base) = false →
        ADJECTIVES.contains (pyLower base) = false →
        EXCLAIMS.contains (pyLower base) = false →
        pyIsAlphaStr base = false →
        smurfify_base chaos g base k = (base, k))
    ∧ (∀ (chaos : ℚ) (g : ℕ → ℚ) (k : ℕ),
        smurfify_line chaos g "😀 123" k = ("😀 123", k)) := by
  refine ⟨fun chaos g k => rfl,
    fun chaos g w k h => smurfify_word_nomatch chaos g w k h,
    fun chaos g base k h1 h2 h3 h4 h5 => ?_,
    fun chaos g k => rfl⟩
  simp only [smurfify_base]
  rw [if_neg (by simp only [h1, h2]; decide), if_neg (by simp only [h3]; decide),
    if_neg (by simp only [h4]; decide), if_neg (by simp only [h5]; decide)]

/-- Witness for C9: pass-through evaluated on a pure-punctuation token
and a numeric base. -/
theorem line_total_passthrough_witness :
    smurfify_word CHAOS_CHANCE (fun _ => 0) "!!!" 4 = ("!!!", 4)
    ∧ smurfify_base CHAOS_CHANCE (fun _ => 0) "123" 4 = ("123", 4) :=
  ⟨line_total_passthrough.2.1 CHAOS_CHANCE (fun _ => 0) "!!!" 4 (by decide),
   line_total_passthrough.2.2.1 CHAOS_CHANCE (fun _ => 0) "123" 4
     (by decide) (by decide) (by decide) (by decide) (by decide)⟩

/-- C10: `is_smurfed` is a case-insensitive test on the post-transform
string, so "smurfberry" counts as a collision partner even though no
substitution occurred on it, and with suitable draws
"smurfberry and fix" comes out as "smurfberry and smurf" — a connector
flanked by two tokens both starting with "smurf". -/
theorem is_smurfed_prior_smurf_collision :
    is_smurfed "smurfberry" = true
    ∧ is_smurfed "SmUrfBerry" = true
    ∧ (smurfify_word CHAOS_CHANCE (fun _ => mkRat 1 2) "smurfberry" 0).1 = "smurfberry"
    ∧ (smurfify_line CHAOS_CHANCE (fun _ => mkRat 1 2) "smurfberry and fix" 0).1 =
        "smurfberry and smurf" := by
  decide

end Smurfify
